import Mathlib

/-!
Verification of `dashboard.py`: a utility that prints the grafana dashboard
URL for a Slurm job.  The script's three shell collaborators (`date +%s -d`,
`scontrol show hostnames`, `sacct -j … --parsable --noheader`) are modelled as
response oracles collected in a `Collab` structure; everything else is a
direct translation of the Python source.
-/

namespace Dashboard

/-- External collaborators (shell commands), modelled as response oracles:
`dateSeconds s` is the integer printed by `date +%s -d s`;
`hostsRaw hl` is the raw stdout of `scontrol show hostnames hl`;
`sacctRaw j` is the raw stdout of
`sacct -j j --parsable --noheader --format NodeList,Start,End`. -/
structure Collab where
  dateSeconds : String → Int
  hostsRaw : String → String
  sacctRaw : String → String

/-- Python `s.strip(c)` for a single character `c`: remove all leading and
trailing copies of `c`. -/
def pystrip (c : Char) (s : String) : String :=
  String.mk (((s.data.dropWhile fun x => x = c).reverse.dropWhile fun x => x = c).reverse)

/-- Python `s.split(c)` for a single-character separator `c`: split at every
occurrence of `c`, keeping empty pieces (so `"".split(c) = [""]` and a
trailing separator yields a trailing empty piece). -/
def pysplit (c : Char) (s : String) : List String :=
  (s.data.splitOn c).map String.mk

/-- `datestr_to_ns` (dashboard.py:48-57): convert a date string to
milliseconds since the epoch by asking `date +%s -d` for the epoch seconds
and multiplying by 1000.  (The name says `ns` but the code produces ms.) -/
def datestr_to_ns (c : Collab) (s : String) : Int :=
  c.dateSeconds s * 1000

/-- `job_info` (dashboard.py:33-46): take the first line of the `sacct`
output (`.strip('\n').split('\n')[0]`, subsequent lines are job steps), split
it on `|` and drop the empty last element coming from the trailing `|`
(`.split('|')[:-1]`). -/
def job_info (c : Collab) (job_id : String) : List String :=
  let info := (pysplit '\n' (pystrip '\n' (c.sacctRaw job_id))).headD ""
  (pysplit '|' info).dropLast

/-- `expand_hosts` (dashboard.py:59-65): `scontrol` stdout,
`.strip('\n').split('\n')`. -/
def expand_hosts (c : Collab) (hostlist : String) : List String :=
  pysplit '\n' (pystrip '\n' (c.hostsRaw hostlist))

/-- Python truthiness of an optional string argument: `None` and `""` are
falsy, every other string is truthy. -/
def truthy : Option String → Bool
  | none => false
  | some s => decide (s ≠ "")

/-- Python `'&'.join(url)` (dashboard.py:97). -/
def joinParams : List String → String
  | [] => ""
  | [p] => p
  | p :: ps => p ++ ("&" ++ joinParams ps)

/-- The query-parameter list `url` built by `get_dashboard_url`
(dashboard.py:82-95): an optional `from=…` entry (epoch ms of `start` minus
`pre` seconds), an optional `to=…` entry (epoch ms of `end` plus `post`
seconds), then one `var-hostname=…` entry per expanded host, with `.domain`
appended when `domain` is truthy.  The Python code appends these to the list
`url` in exactly this order. -/
def dashboard_params (c : Collab) (start end_ hostlist domain : Option String)
    (pre post : Int) : List String :=
  (if truthy start then
      ["from=" ++ toString (datestr_to_ns c (start.getD "") - pre * 1000)]
    else []) ++
  (if truthy end_ then
      ["to=" ++ toString (datestr_to_ns c (end_.getD "") + post * 1000)]
    else []) ++
  (if truthy hostlist then
      (expand_hosts c (hostlist.getD "")).map (fun host =>
        if truthy domain then "var-hostname=" ++ host ++ "." ++ domain.getD ""
        else "var-hostname=" ++ host)
    else [])

/-- `get_dashboard_url` (dashboard.py:67-97):
`return baseurl + '?' + '&'.join(url)`. -/
def get_dashboard_url (c : Collab) (baseurl : String)
    (start end_ hostlist domain : Option String) (pre post : Int) : String :=
  baseurl ++ "?" ++ joinParams (dashboard_params c start end_ hostlist domain pre post)

/-- Outcome of one CLI invocation: `usage` is `exit(usage-text)` (message on
stderr, exit status 1, no URL printed); `printed u` is the URL `u` printed on
stdout with exit status 0; `error` is an uncaught Python exception (traceback
on stderr, nonzero exit status, no usage text and no URL). -/
inductive MainResult where
  | usage : MainResult
  | printed : String → MainResult
  | error : MainResult
deriving DecidableEq

/-- The `__main__` block (dashboard.py:99-108).  `argv` includes the program
name.  Fewer than 3 entries: `exit(usage)`.  Exactly 3: unpack
`job_info(argv[2])` into three names (a record with a different field count
raises an uncaught `ValueError`) and build the URL from them.  Otherwise
`get_dashboard_url(*argv[1:])`: up to 5 excess-free arguments map onto
`baseurl, start, end, hostlist, domain`; a 6th argument is bound to `pre` and
a 7th to `post` as *strings*, so the call raises an uncaught `TypeError`
(`int - str`) as soon as `start` (for `pre`) or `end` (for `post`) is truthy;
8 or more arguments exceed the parameter list and raise `TypeError`
immediately. -/
def pymain (c : Collab) (argv : List String) : MainResult :=
  if argv.length < 3 then MainResult.usage
  else if argv.length = 3 then
    match job_info c (argv.getD 2 "") with
    | [nodelist, start, end_] =>
        MainResult.printed
          (get_dashboard_url c (argv.getD 1 "") (some start) (some end_)
            (some nodelist) none 30 30)
    | _ => MainResult.error
  else
    let args := argv.drop 1
    if args.length ≤ 5 then
      MainResult.printed
        (get_dashboard_url c (args.getD 0 "") (args.get? 1) (args.get? 2)
          (args.get? 3) (args.get? 4) 30 30)
    else if args.length = 6 then
      if args.getD 1 "" = "" then
        MainResult.printed
          (get_dashboard_url c (args.getD 0 "") (args.get? 1) (args.get? 2)
            (args.get? 3) (args.get? 4) 30 30)
      else MainResult.error
    else if args.length = 7 then
      if args.getD 1 "" = "" ∧ args.getD 2 "" = "" then
        MainResult.printed
          (get_dashboard_url c (args.getD 0 "") (args.get? 1) (args.get? 2)
            (args.get? 3) (args.get? 4) 30 30)
      else MainResult.error
    else MainResult.error

/-- Modelled from the spec (section 6, CLI surface): the argument-vector
lengths accepted by the documented CLI grammar
`dashboard BASE_URL SLURM_JOB_ID` (3 entries with the program name) and
`dashboard BASE_URL START END [HOSTLIST] [DOMAIN]` (4 to 6 entries). -/
def specValidArgvLen (n : Nat) : Prop :=
  n = 3 ∨ (4 ≤ n ∧ n ≤ 6)

/-- Modelled from the spec (section 4.1, Time Normalizer): apply the signed
pad to the epoch seconds first (`start` subtracts, `end` adds), then convert
to milliseconds by multiplying by 1000. -/
def normalizeSpec (secs pad : Int) (isStart : Bool) : Int :=
  (if isStart then secs - pad else secs + pad) * 1000

/- ### String helper lemmas -/

theorem sdata_append (a b : String) : (a ++ b).data = a.data ++ b.data := rfl

theorem sappend_assoc (a b c : String) : a ++ b ++ c = a ++ (b ++ c) :=
  congrArg String.mk (List.append_assoc a.data b.data c.data)

theorem sappend_empty (a : String) : a ++ "" = a :=
  congrArg String.mk (List.append_nil a.data)

theorem joinParams_single (p : String) : joinParams [p] = p := rfl

theorem joinParams_cons_cons (p q : String) (ps : List String) :
    joinParams (p :: q :: ps) = p ++ ("&" ++ joinParams (q :: ps)) := rfl

/-- Joining a list with at least two leading elements starts with
`p ++ "&" ++ q`. -/
theorem joinParams_two (p q : String) (t : List String) :
    ∃ w, joinParams (p :: q :: t) = p ++ "&" ++ q ++ w := by
  cases t with
  | nil =>
      exact ⟨"", by rw [sappend_empty, joinParams_cons_cons, joinParams_single, sappend_assoc]⟩
  | cons x xs =>
      refine ⟨"&" ++ joinParams (x :: xs), ?_⟩
      rw [joinParams_cons_cons, joinParams_cons_cons, sappend_assoc, sappend_assoc]

theorem sempty_append (a : String) : "" ++ a = a :=
  congrArg String.mk (List.nil_append a.data)

theorem joinParams_cons_ne_nil (p : String) (ps : List String) (h : ps ≠ []) :
    joinParams (p :: ps) = p ++ ("&" ++ joinParams ps) := by
  cases ps with
  | nil => exact absurd rfl h
  | cons q qs => exact joinParams_cons_cons p q qs

/-- Joining a concatenation with a nonempty second part ends with the join of
the second part. -/
theorem joinParams_append (xs : List String) (z : String) (zs : List String) :
    ∃ u, joinParams (xs ++ z :: zs) = u ++ joinParams (z :: zs) := by
  induction xs with
  | nil => exact ⟨"", by rw [List.nil_append, sempty_append]⟩
  | cons x xs ih =>
      obtain ⟨u, hu⟩ := ih
      refine ⟨x ++ "&" ++ u, ?_⟩
      rw [List.cons_append, joinParams_cons_ne_nil x (xs ++ z :: zs) (by simp), hu]
      simp only [sappend_assoc]

theorem truthy_some (s : String) (h : s ≠ "") : truthy (some s) = true := by
  simp [truthy, h]

theorem truthy_none : truthy none = false := rfl

/-- Splitting a list that starts with a separator-free block followed by the
separator peels off that block. -/
theorem splitOn_sep_cons (c : Char) (a rest : List Char) (h : c ∉ a) :
    (a ++ c :: rest).splitOn c = a :: rest.splitOn c := by
  simp only [List.splitOn]
  exact List.splitOnP_first (fun x => x == c) a
    (fun x hx => by
      simp only [beq_iff_eq]
      exact fun hxc => h (hxc ▸ hx))
    c (by simp) rest

theorem from_ne_var (x r : String) : "from=" ++ x ≠ "var-hostname=" ++ r := by
  intro hcontra
  have h2 : ("from=" ++ x).data = ("var-hostname=" ++ r).data :=
    congrArg String.data hcontra
  rw [sdata_append, sdata_append] at h2
  rw [show ("from=" : String).data = ['f', 'r', 'o', 'm', '='] from rfl,
    show ("var-hostname=" : String).data
      = ['v', 'a', 'r', '-', 'h', 'o', 's', 't', 'n', 'a', 'm', 'e', '='] from rfl] at h2
  simp only [List.cons_append, List.cons.injEq] at h2
  exact absurd h2.1 (by decide)

theorem to_ne_var (x r : String) : "to=" ++ x ≠ "var-hostname=" ++ r := by
  intro hcontra
  have h2 : ("to=" ++ x).data = ("var-hostname=" ++ r).data :=
    congrArg String.data hcontra
  rw [sdata_append, sdata_append] at h2
  rw [show ("to=" : String).data = ['t', 'o', '='] from rfl,
    show ("var-hostname=" : String).data
      = ['v', 'a', 'r', '-', 'h', 'o', 's', 't', 'n', 'a', 'm', 'e', '='] from rfl] at h2
  simp only [List.cons_append, List.cons.injEq] at h2
  exact absurd h2.1 (by decide)

/- ### Concrete collaborators used by the witnesses -/

/-- A collaborator assignment realising the spec's concrete time scenario. -/
def collab₀ : Collab where
  dateSeconds s :=
    if s = "Wed Oct 30 11:55:13 GMT 2019" then 1572436483
    else if s = "Wed Oct 30 12:03:02 GMT 2019" then 1572437012 else 0
  hostsRaw _ := ""
  sacctRaw _ := ""

/-- A collaborator assignment whose host expansion yields two hosts. -/
def collabH : Collab where
  dateSeconds _ := 0
  hostsRaw hl := if hl = "h[1-2]" then "h1\nh2" else ""
  sacctRaw _ := ""

/-- A collaborator assignment realising the spec's job-lookup scenario. -/
def collabJ : Collab where
  dateSeconds _ := 0
  hostsRaw _ := ""
  sacctRaw _ :=
    "openhpc-compute-[1-2]|Wed Oct 30 11:55:13 2019|Wed Oct 30 12:03:02 2019|"

/-- A collaborator assignment whose host expansion output is empty. -/
def collabE : Collab where
  dateSeconds _ := 0
  hostsRaw _ := ""
  sacctRaw _ := ""

/- ### Claims -/

/-- C3: for every input the URL builder's result equals
`base_url ++ "?" ++` the `&`-join of the accumulated parameter list, and when
`start`, `end` and `hostlist` are all absent the result is exactly
`base_url ++ "?"`. -/
theorem C3_url_assembly (c : Collab) (b : String) (s e h d : Option String)
    (pre post : Int) :
    get_dashboard_url c b s e h d pre post
      = b ++ "?" ++ joinParams (dashboard_params c s e h d pre post) ∧
    get_dashboard_url c b none none none none pre post = b ++ "?" := by
  refine ⟨rfl, ?_⟩
  show b ++ "?" ++ joinParams (dashboard_params c none none none none pre post)
      = b ++ "?"
  simp [dashboard_params, truthy, joinParams, sappend_empty]

/-- C4: the spec's time normalization (apply the signed pad to the epoch
seconds, then multiply by 1000) equals the implemented computation (multiply
the collaborator's epoch seconds by 1000, then subtract or add `pad * 1000`),
for every collaborator response and every pad. -/
theorem C4_pad_refinement (c : Collab) (s : String) (pad : Int) :
    datestr_to_ns c s - pad * 1000 = normalizeSpec (c.dateSeconds s) pad true ∧
    datestr_to_ns c s + pad * 1000 = normalizeSpec (c.dateSeconds s) pad false := by
  constructor <;> simp [datestr_to_ns, normalizeSpec] <;> ring

/-- C8: the URL builder is deterministic: two calls with identical arguments
whose collaborators give identical responses on the queried strings produce
byte-identical output. -/
theorem C8_deterministic (c₁ c₂ : Collab) (b : String) (s e h d : Option String)
    (pre post : Int)
    (hs : truthy s = true → c₁.dateSeconds (s.getD "") = c₂.dateSeconds (s.getD ""))
    (he : truthy e = true → c₁.dateSeconds (e.getD "") = c₂.dateSeconds (e.getD ""))
    (hh : truthy h = true → c₁.hostsRaw (h.getD "") = c₂.hostsRaw (h.getD "")) :
    get_dashboard_url c₁ b s e h d pre post
      = get_dashboard_url c₂ b s e h d pre post := by
  unfold get_dashboard_url dashboard_params datestr_to_ns expand_hosts
  cases hts : truthy s <;> cases hte : truthy e <;> cases hth : truthy h <;>
    simp_all

/-- A second collaborator assignment that agrees with `collab₀` only on the
first date string. -/
def collabAlt : Collab where
  dateSeconds s := if s = "Wed Oct 30 11:55:13 GMT 2019" then 1572436483 else 7
  hostsRaw _ := "zz"
  sacctRaw _ := "zz"

/-- C8 witness: two distinct collaborator functions agreeing on the queried
strings give byte-identical URLs on a concrete call. -/
theorem C8_deterministic_witness :
    get_dashboard_url collab₀ "b" (some "Wed Oct 30 11:55:13 GMT 2019") none none none 30 30
      = get_dashboard_url collabAlt
          "b" (some "Wed Oct 30 11:55:13 GMT 2019") none none none 30 30 := by
  exact C8_deterministic _ _ _ _ _ _ _ _ _ (fun _ => by decide) (fun hco => by cases hco)
    (fun hco => by cases hco)

/-- C9: the URL builder treats the empty string the same as an absent value
for each of the four optional string parameters. -/
theorem C9_empty_as_absent (c : Collab) (b : String) (s e h d : Option String)
    (pre post : Int) :
    get_dashboard_url c b (some "") e h d pre post
        = get_dashboard_url c b none e h d pre post ∧
    get_dashboard_url c b s (some "") h d pre post
        = get_dashboard_url c b s none h d pre post ∧
    get_dashboard_url c b s e (some "") d pre post
        = get_dashboard_url c b s e none d pre post ∧
    get_dashboard_url c b s e h (some "") pre post
        = get_dashboard_url c b s e h none pre post := by
  refine ⟨?_, ?_, ?_, ?_⟩ <;> simp [get_dashboard_url, dashboard_params, truthy]

/-- C1: when the date collaborator resolves `start` and `end` to epoch
seconds `s1` and `s2`, the URL built with default pads 30/30 contains
`from=` followed by `(s1-30)*1000`, immediately joined by `&` to `to=`
followed by `(s2+30)*1000`. -/
theorem C1_from_to_window (c : Collab) (b start end_ : String) (h d : Option String)
    (s1 s2 : Int) (hs : start ≠ "") (he : end_ ≠ "")
    (h1 : c.dateSeconds start = s1) (h2 : c.dateSeconds end_ = s2) :
    ∃ u v, get_dashboard_url c b (some start) (some end_) h d 30 30
      = u ++ ("from=" ++ toString ((s1 - 30) * 1000) ++ "&" ++ "to="
              ++ toString ((s2 + 30) * 1000)) ++ v := by
  have hfrom : c.dateSeconds start * 1000 - 30 * 1000 = (s1 - 30) * 1000 := by
    rw [h1]; ring
  have hto : c.dateSeconds end_ * 1000 + 30 * 1000 = (s2 + 30) * 1000 := by
    rw [h2]; ring
  unfold get_dashboard_url dashboard_params datestr_to_ns
  rw [truthy_some start hs, truthy_some end_ he]
  simp only [if_true, Option.getD_some, hfrom, hto, List.cons_append, List.nil_append,
    List.singleton_append]
  obtain ⟨w, hw⟩ := joinParams_two ("from=" ++ toString ((s1 - 30) * 1000))
    ("to=" ++ toString ((s2 + 30) * 1000))
    (if truthy h then
        (expand_hosts c (h.getD "")).map (fun host =>
          if truthy d then "var-hostname=" ++ host ++ "." ++ d.getD ""
          else "var-hostname=" ++ host)
      else [])
  rw [hw]
  refine ⟨b ++ "?", w, ?_⟩
  simp only [sappend_assoc]

/-- C1 witness: the spec's concrete scenario, via `collab₀`. -/
theorem C1_from_to_window_witness : ∃ u v,
    get_dashboard_url collab₀ "http://host:3000/d/x"
        (some "Wed Oct 30 11:55:13 GMT 2019") (some "Wed Oct 30 12:03:02 GMT 2019")
        none none 30 30
      = u ++ "from=1572436453000&to=1572437042000" ++ v := by
  obtain ⟨u, v, huv⟩ := C1_from_to_window collab₀ "http://host:3000/d/x"
    "Wed Oct 30 11:55:13 GMT 2019" "Wed Oct 30 12:03:02 GMT 2019" none none
    1572436483 1572437012 (by decide) (by decide) rfl rfl
  exact ⟨u, v, huv.trans (congrArg (fun t => u ++ t ++ v) (by decide))⟩

/-- C2: for a truthy hostlist, the builder appends, after the time
parameters, exactly one `var-hostname=` parameter per expanded host in
expansion order, with `.domain` appended exactly when `domain` is truthy;
consequently the full URL ends in the `&`-join of those host parameters. -/
theorem C2_hostname_params (c : Collab) (b : String) (s e d : Option String)
    (pre post : Int) (hl : String) (hhl : hl ≠ "") :
    dashboard_params c s e (some hl) d pre post
      = dashboard_params c s e none none pre post
        ++ (expand_hosts c hl).map (fun host =>
            if truthy d then "var-hostname=" ++ host ++ "." ++ d.getD ""
            else "var-hostname=" ++ host) ∧
    ∃ u, get_dashboard_url c b s e (some hl) d pre post
      = u ++ joinParams ((expand_hosts c hl).map (fun host =>
            if truthy d then "var-hostname=" ++ host ++ "." ++ d.getD ""
            else "var-hostname=" ++ host)) := by
  have hfirst : dashboard_params c s e (some hl) d pre post
      = dashboard_params c s e none none pre post
        ++ (expand_hosts c hl).map (fun host =>
            if truthy d then "var-hostname=" ++ host ++ "." ++ d.getD ""
            else "var-hostname=" ++ host) := by
    simp [dashboard_params, truthy_some hl hhl, truthy_none, List.append_assoc]
  refine ⟨hfirst, ?_⟩
  cases hexp : (expand_hosts c hl).map (fun host =>
      if truthy d then "var-hostname=" ++ host ++ "." ++ d.getD ""
      else "var-hostname=" ++ host) with
  | nil =>
      refine absurd (List.map_eq_nil_iff.mp hexp) ?_
      unfold expand_hosts pysplit
      intro hcontra
      have hnil := List.map_eq_nil_iff.mp hcontra
      rw [List.splitOn] at hnil
      exact List.splitOnP_ne_nil _ _ hnil
  | cons z zs =>
      obtain ⟨u, hu⟩ := joinParams_append
        (dashboard_params c s e none none pre post) z zs
      refine ⟨b ++ "?" ++ u, ?_⟩
      show b ++ "?" ++ joinParams (dashboard_params c s e (some hl) d pre post) = _
      rw [hfirst, hexp, hu]
      simp only [sappend_assoc]

/-- C2 witness: hosts `h1`, `h2` with domain `example.com`, via `collabH`. -/
theorem C2_hostname_params_witness : ∃ u,
    get_dashboard_url collabH "http://b" none none (some "h[1-2]")
        (some "example.com") 30 30
      = u ++ "var-hostname=h1.example.com&var-hostname=h2.example.com" := by
  obtain ⟨u, hu⟩ := (C2_hostname_params collabH "http://b" none none
    (some "example.com") 30 30 "h[1-2]" (by decide)).2
  exact ⟨u, hu.trans (congrArg (fun t => u ++ t) (by decide))⟩

/-- C7: the parameter list decomposes as `from`-parameters, then
`to`-parameters, then `var-hostname`-parameters, in that order; and when
`hostlist` is absent or empty no parameter at all is a `var-hostname`
parameter. -/
theorem C7_param_order (c : Collab) (s e h d : Option String) (pre post : Int) :
    ∃ fs ts hs : List String,
      dashboard_params c s e h d pre post = fs ++ ts ++ hs ∧
      (∀ p ∈ fs, ∃ r, p = "from=" ++ r) ∧
      (∀ p ∈ ts, ∃ r, p = "to=" ++ r) ∧
      (∀ p ∈ hs, ∃ r, p = "var-hostname=" ++ r) ∧
      (truthy h = false →
        ∀ p ∈ dashboard_params c s e h d pre post, ∀ r, p ≠ "var-hostname=" ++ r) := by
  refine ⟨(if truthy s then
      ["from=" ++ toString (datestr_to_ns c (s.getD "") - pre * 1000)] else []),
    (if truthy e then
      ["to=" ++ toString (datestr_to_ns c (e.getD "") + post * 1000)] else []),
    (if truthy h then
      (expand_hosts c (h.getD "")).map (fun host =>
        if truthy d then "var-hostname=" ++ host ++ "." ++ d.getD ""
        else "var-hostname=" ++ host)
      else []), rfl, ?_, ?_, ?_, ?_⟩
  · intro p hp
    cases hts : truthy s <;> rw [hts] at hp <;> simp at hp
    exact ⟨_, hp⟩
  · intro p hp
    cases hte : truthy e <;> rw [hte] at hp <;> simp at hp
    exact ⟨_, hp⟩
  · intro p hp
    cases hth : truthy h <;> rw [hth] at hp <;> simp at hp
    obtain ⟨host, _, rfl⟩ := hp
    cases htd : truthy d
    · exact ⟨host, by simp⟩
    · exact ⟨host ++ ("." ++ d.getD ""), by simp [sappend_assoc]⟩
  · intro hhf p hp r
    unfold dashboard_params at hp
    rw [hhf] at hp
    simp only [Bool.false_eq_true, if_false, List.append_nil, List.mem_append] at hp
    rcases hp with hp | hp
    · cases hts : truthy s <;> rw [hts] at hp <;> simp at hp
      rw [hp]; exact from_ne_var _ r
    · cases hte : truthy e <;> rw [hte] at hp <;> simp at hp
      rw [hp]; exact to_ne_var _ r

/-- C7 witness: the decomposition at a concrete call with all parameters
present. -/
theorem C7_param_order_witness : ∃ fs ts hs : List String,
    dashboard_params collabH (some "Wed Oct 30 11:55:13 GMT 2019")
        (some "Wed Oct 30 12:03:02 GMT 2019") (some "h[1-2]") (some "example.com")
        30 30 = fs ++ ts ++ hs ∧
      (∀ p ∈ fs, ∃ r, p = "from=" ++ r) ∧
      (∀ p ∈ ts, ∃ r, p = "to=" ++ r) ∧
      (∀ p ∈ hs, ∃ r, p = "var-hostname=" ++ r) ∧
      (truthy (some "h[1-2]") = false →
        ∀ p ∈ dashboard_params collabH (some "Wed Oct 30 11:55:13 GMT 2019")
          (some "Wed Oct 30 12:03:02 GMT 2019") (some "h[1-2]") (some "example.com")
          30 30, ∀ r, p ≠ "var-hostname=" ++ r) :=
  C7_param_order collabH (some "Wed Oct 30 11:55:13 GMT 2019")
    (some "Wed Oct 30 12:03:02 GMT 2019") (some "h[1-2]") (some "example.com") 30 30

/-- C10: when the host-expansion collaborator's raw output is the empty
string, `expand_hosts` returns the one-element list `[""]`, and the builder
emits exactly one `var-hostname=` parameter with an empty host name
(`var-hostname=.domain` when a domain is supplied). -/
theorem C10_empty_expansion (c : Collab) (s e d : Option String) (pre post : Int)
    (hl : String) (hhl : hl ≠ "") (hraw : c.hostsRaw hl = "") :
    expand_hosts c hl = [""] ∧
    dashboard_params c s e (some hl) d pre post
      = dashboard_params c s e none none pre post
        ++ [if truthy d then "var-hostname=" ++ "." ++ d.getD ""
            else "var-hostname="] := by
  have hexp : expand_hosts c hl = [""] := by
    unfold expand_hosts
    rw [hraw]
    decide
  refine ⟨hexp, ?_⟩
  have hfirst : dashboard_params c s e (some hl) d pre post
      = dashboard_params c s e none none pre post
        ++ (expand_hosts c hl).map (fun host =>
            if truthy d then "var-hostname=" ++ host ++ "." ++ d.getD ""
            else "var-hostname=" ++ host) := by
    simp [dashboard_params, truthy_some hl hhl, truthy_none, List.append_assoc]
  rw [hfirst, hexp]
  simp only [List.map_cons, List.map_nil]
  cases htd : truthy d
  · simp
  · simp [sappend_empty]

/-- C10 witness: a hostlist whose expansion output is empty yields the single
parameter `var-hostname=`, via `collabE`. -/
theorem C10_empty_expansion_witness :
    expand_hosts collabE "h[9-8]" = [""] ∧
    dashboard_params collabE none none (some "h[9-8]") none 30 30
      = dashboard_params collabE none none none none 30 30 ++ ["var-hostname="] := by
  have h := C10_empty_expansion collabE none none none 30 30 "h[9-8]"
    (by decide) rfl
  exact ⟨h.1, h.2⟩

/-- C5: job lookup takes only the first line of the `sacct` output; when that
line is three pipe-free fields each followed by `|`, the result is exactly
those three fields (the trailing delimiter is stripped). -/
theorem C5_job_record (c : Collab) (jid a b d : String)
    (ha : '|' ∉ a.data) (hb : '|' ∉ b.data) (hd : '|' ∉ d.data)
    (hline : (pysplit '\n' (pystrip '\n' (c.sacctRaw jid))).headD ""
        = a ++ "|" ++ b ++ "|" ++ d ++ "|") :
    job_info c jid = [a, b, d] := by
  unfold job_info
  rw [hline]
  unfold pysplit
  show (List.map String.mk
      (List.splitOn '|' (a ++ "|" ++ b ++ "|" ++ d ++ "|").data)).dropLast = [a, b, d]
  have hdata : (a ++ "|" ++ b ++ "|" ++ d ++ "|").data
      = a.data ++ '|' :: (b.data ++ '|' :: (d.data ++ '|' :: ([] : List Char))) := by
    simp only [sdata_append, show ("|" : String).data = ['|'] from rfl,
      List.append_assoc, List.cons_append, List.nil_append, List.singleton_append]
  rw [hdata, splitOn_sep_cons '|' a.data _ ha, splitOn_sep_cons '|' b.data _ hb,
    splitOn_sep_cons '|' d.data _ hd]
  simp [List.dropLast]

/-- C5 witness: the spec's concrete job record, via `collabJ`. -/
theorem C5_job_record_witness :
    job_info collabJ "123"
      = ["openhpc-compute-[1-2]", "Wed Oct 30 11:55:13 2019",
         "Wed Oct 30 12:03:02 2019"] :=
  C5_job_record collabJ "123" "openhpc-compute-[1-2]" "Wed Oct 30 11:55:13 2019"
    "Wed Oct 30 12:03:02 2019" (by decide) (by decide) (by decide) (by decide)

/-- C6 counterexample: an invocation whose argument count is wrong for the
spec's CLI grammar (9 argv entries, i.e. 8 operands), on which the program
neither prints a usage message nor stops before producing output by a clean
exit: the oversized splat call `get_dashboard_url(*sys.argv[1:])` raises an
uncaught `TypeError` instead (`MainResult.error`), so the claim that every
malformed argument count yields the usage message is false. -/
theorem C6_cli_counterexample :
    ¬ specValidArgvLen
        (["dashboard.py", "b", "s", "e", "h", "d", "1", "2", "3"] : List String).length
      ∧ pymain collab₀ ["dashboard.py", "b", "s", "e", "h", "d", "1", "2", "3"]
          = MainResult.error
      ∧ MainResult.error ≠ MainResult.usage := by
  refine ⟨?_, rfl, by decide⟩
  unfold specValidArgvLen
  decide

/-- C6 amended: only an argument count below 3 (fewer than two operands) is
reported via the usage message with an error exit and no URL output; with 4
to 6 argv entries (the other counts the spec's CLI grammar allows) the
program prints the URL built from the operands.  (Oversized argument lists
instead crash with an uncaught `TypeError`, per the counterexample.) -/
theorem C6_argument_errors (c : Collab) (argv : List String) :
    (argv.length < 3 → pymain c argv = MainResult.usage) ∧
    (4 ≤ argv.length → argv.length ≤ 6 →
      pymain c argv = MainResult.printed
        (get_dashboard_url c ((argv.drop 1).getD 0 "") ((argv.drop 1).get? 1)
          ((argv.drop 1).get? 2) ((argv.drop 1).get? 3) ((argv.drop 1).get? 4)
          30 30)) := by
  constructor
  · intro h
    unfold pymain
    rw [if_pos h]
  · intro h4 h6
    unfold pymain
    rw [if_neg (by omega), if_neg (by omega)]
    show (if (argv.drop 1).length ≤ 5 then _ else _) = _
    rw [if_pos (by rw [List.length_drop]; omega)]

/-- C6 amended witness: one malformed invocation (usage) and one successful
invocation (printed URL). -/
theorem C6_argument_errors_witness :
    pymain collab₀ ["dashboard.py", "b"] = MainResult.usage ∧
    pymain collab₀ ["dashboard.py", "b", "s", "e", "hosts", "dom"]
      = MainResult.printed
          (get_dashboard_url collab₀ "b" (some "s") (some "e") (some "hosts")
            (some "dom") 30 30) := by
  constructor
  · exact (C6_argument_errors collab₀ ["dashboard.py", "b"]).1 (by decide)
  · exact (C6_argument_errors collab₀
      ["dashboard.py", "b", "s", "e", "hosts", "dom"]).2 (by decide) (by decide)

end Dashboard
